import Mathlib

/-!
Shallow embedding of the `tracing` package of iand/go-ipfs-tracing.

The repository holds two source files of the same Go package, modelled in
the namespaces `tracing` (src/tracing.go) and `part000` (src/unnamed/part_000).
Opaque identifier types (cid.Cid, path.Path, blocks.Block) are modelled by
their canonical string representations, which is all this package uses of
them.  The tracing backend is modelled by the observable interactions a call
makes with it: the span name handed to the tracer, the attributes passed as
span-start options, every key/value attribute value constructed during the
call, and every `SetAttributes` invocation.  The recording state of the span
returned by the backend is a boolean parameter.
-/

/-- An opaque content identifier (`cid.Cid`), exposing its canonical string. -/
structure Cid where
  str : String
deriving DecidableEq, Repr

/-- `c.String()` for a cid. -/
def Cid.toString (c : Cid) : String := c.str

/-- An opaque content path (`path.Path`), exposing its canonical string. -/
structure IpfsPath where
  str : String
deriving DecidableEq, Repr

/-- `p.String()` for a path. -/
def IpfsPath.toString (p : IpfsPath) : String := p.str

/-- An opaque block (`blocks.Block`); the package only uses `b.Cid()`. -/
structure Block where
  blockCid : Cid
deriving DecidableEq, Repr

/-- `b.Cid()` for a block. -/
def Block.cid (b : Block) : Cid := b.blockCid

/-- The value of an OpenTelemetry attribute, restricted to the kinds this
package builds (`attribute.String`, `attribute.Int`). -/
inductive AttrValue where
  | stringValue (s : String)
  | intValue (i : Int)
deriving DecidableEq, Repr

/-- `attribute.KeyValue`. -/
structure KeyValue where
  key : String
  value : AttrValue
deriving DecidableEq, Repr

/-- `attribute.String(k, v)`. -/
def Attr.string (k v : String) : KeyValue := ⟨k, .stringValue v⟩

/-- `attribute.Int(k, v)`. -/
def Attr.int (k : String) (v : Int) : KeyValue := ⟨k, .intValue v⟩

/-- The observable interactions one call of a span-starting helper has with
the tracing backend: the span name passed to `Tracer.Start`, the attributes
passed as `trace.WithAttributes` start options, every `attribute.KeyValue`
constructed during the call (in evaluation order), and the argument list of
every `span.SetAttributes` invocation. -/
structure SpanTrace where
  spanName : String
  startAttrs : List KeyValue
  constructed : List KeyValue
  setAttrCalls : List (List KeyValue)
deriving DecidableEq, Repr

namespace tracing

/-- `Span` (src/tracing.go): `fmt.Sprintf("%s.%s", componentName, spanName)`
handed to the tracer; no attributes of its own. -/
def Span (componentName spanName : String) : SpanTrace :=
  { spanName := componentName ++ "." ++ spanName
    startAttrs := []
    constructed := []
    setAttrCalls := [] }

/-- `SpanWithStringAttribute`: the string attribute is built unconditionally
and passed via `trace.WithAttributes` at span start. -/
def SpanWithStringAttribute (_rec : Bool) (componentName spanName k v : String) :
    SpanTrace :=
  { Span componentName spanName with
    startAttrs := [Attr.string k v]
    constructed := [Attr.string k v] }

/-- `SpanWithIntAttribute`: the int attribute is built unconditionally and
passed via `trace.WithAttributes` at span start. -/
def SpanWithIntAttribute (_rec : Bool) (componentName spanName k : String)
    (v : Int) : SpanTrace :=
  { Span componentName spanName with
    startAttrs := [Attr.int k v]
    constructed := [Attr.int k v] }

/-- `PathAttribute`. -/
def PathAttribute (p : IpfsPath) : KeyValue :=
  Attr.string "path" p.toString

/-- `CidAttribute`. -/
def CidAttribute (c : Cid) : KeyValue :=
  Attr.string "cid" c.toString

/-- The summarised string value built by `CidListAttribute`, given the
canonical strings of the list's items.  Mirrors the Go body: `max := 3`
clamped to the length, the first `max` strings joined by `","`, and the
`" and %d more"` suffix when items were omitted. -/
def listSummary (ss : List String) : String :=
  if ss.length = 0 then "empty list"
  else
    let max := if 3 > ss.length then ss.length else 3
    let shown := ss.take max
    let value := String.intercalate "," shown
    if max < ss.length then
      value ++ " and " ++ Nat.repr (ss.length - max) ++ " more"
    else value

/-- `CidListAttribute`. -/
def CidListAttribute (cs : List Cid) : KeyValue :=
  Attr.string "cids" (listSummary (cs.map Cid.toString))

/-- `BlockAttribute`. -/
def BlockAttribute (b : Block) : KeyValue :=
  Attr.string "block" b.cid.toString

/-- `BlockListAttribute`. -/
def BlockListAttribute (bs : List Block) : KeyValue :=
  Attr.string "blocks" (listSummary (bs.map (fun b => b.cid.toString)))

/-- The Go loop `for i := range cids { cids[i] = cs[i].String() }` reads the
source list by index, ascending; this models its iterations `0 .. max-1`,
each read `cs[i]` done with the partial `List.get?`, so an out-of-bounds
read surfaces as `none`. -/
def readShown (ss : List String) : Nat → Option (List String)
  | 0 => some []
  | n + 1 =>
    match readShown ss n, ss.get? n with
    | some acc, some s => some (acc ++ [s])
    | _, _ => none

/-- `CidListAttribute` with the index loop modelled partially: `none` is the
out-of-bounds branch. -/
def listSummaryIdx (ss : List String) : Option String :=
  if ss.length = 0 then some "empty list"
  else
    let max := if 3 > ss.length then ss.length else 3
    match readShown ss max with
    | none => none
    | some shown =>
      let value := String.intercalate "," shown
      if max < ss.length then
        some (value ++ " and " ++ Nat.repr (ss.length - max) ++ " more")
      else some value

/-- `SpanWithPathAttribute`: attribute built and set only when recording. -/
def SpanWithPathAttribute (rec : Bool) (componentName spanName : String)
    (p : IpfsPath) : SpanTrace :=
  let base := Span componentName spanName
  if rec then
    { base with
      constructed := [PathAttribute p]
      setAttrCalls := [[PathAttribute p]] }
  else base

/-- `SpanWithCidAttribute`: attribute built and set only when recording. -/
def SpanWithCidAttribute (rec : Bool) (componentName spanName : String)
    (c : Cid) : SpanTrace :=
  let base := Span componentName spanName
  if rec then
    { base with
      constructed := [Attr.string "cid" c.toString]
      setAttrCalls := [[Attr.string "cid" c.toString]] }
  else base

/-- `SpanWithCidListAttribute` (src/tracing.go): delegates to
`CidListAttribute`, guarded by `IsRecording`. -/
def SpanWithCidListAttribute (rec : Bool) (componentName spanName : String)
    (cs : List Cid) : SpanTrace :=
  let base := Span componentName spanName
  if rec then
    { base with
      constructed := [CidListAttribute cs]
      setAttrCalls := [[CidListAttribute cs]] }
  else base

/-- `SpanWithBlockAttribute`: attribute built and set only when recording. -/
def SpanWithBlockAttribute (rec : Bool) (componentName spanName : String)
    (b : Block) : SpanTrace :=
  let base := Span componentName spanName
  if rec then
    { base with
      constructed := [BlockAttribute b]
      setAttrCalls := [[BlockAttribute b]] }
  else base

/-- `SpanWithBlockListAttribute` (src/tracing.go): delegates to
`BlockListAttribute`, guarded by `IsRecording`. -/
def SpanWithBlockListAttribute (rec : Bool) (componentName spanName : String)
    (bs : List Block) : SpanTrace :=
  let base := Span componentName spanName
  if rec then
    { base with
      constructed := [BlockListAttribute bs]
      setAttrCalls := [[BlockListAttribute bs]] }
  else base

end tracing

namespace part000

/-- `Span` (src/unnamed/part_000), identical to src/tracing.go. -/
def Span (componentName spanName : String) : SpanTrace :=
  { spanName := componentName ++ "." ++ spanName
    startAttrs := []
    constructed := []
    setAttrCalls := [] }

/-- `SpanWithStringAttribute` (part_000), identical to src/tracing.go. -/
def SpanWithStringAttribute (_rec : Bool) (componentName spanName k v : String) :
    SpanTrace :=
  { Span componentName spanName with
    startAttrs := [Attr.string k v]
    constructed := [Attr.string k v] }

/-- `SpanWithIntAttribute` (part_000), identical to src/tracing.go. -/
def SpanWithIntAttribute (_rec : Bool) (componentName spanName k : String)
    (v : Int) : SpanTrace :=
  { Span componentName spanName with
    startAttrs := [Attr.int k v]
    constructed := [Attr.int k v] }

/-- `SpanWithPathAttribute` (part_000): builds
`attribute.String("path", p.String())` inline when recording. -/
def SpanWithPathAttribute (rec : Bool) (componentName spanName : String)
    (p : IpfsPath) : SpanTrace :=
  let base := Span componentName spanName
  if rec then
    { base with
      constructed := [Attr.string "path" p.toString]
      setAttrCalls := [[Attr.string "path" p.toString]] }
  else base

/-- `SpanWithCidAttribute` (part_000), identical to src/tracing.go. -/
def SpanWithCidAttribute (rec : Bool) (componentName spanName : String)
    (c : Cid) : SpanTrace :=
  let base := Span componentName spanName
  if rec then
    { base with
      constructed := [Attr.string "cid" c.toString]
      setAttrCalls := [[Attr.string "cid" c.toString]] }
  else base

/-- `SpanWithCidListAttribute` (part_000): computes the summary inline when
recording (same value computation as `tracing.CidListAttribute`) and sets
`attribute.String("cids", value)`. -/
def SpanWithCidListAttribute (rec : Bool) (componentName spanName : String)
    (cs : List Cid) : SpanTrace :=
  let base := Span componentName spanName
  if rec then
    let value := tracing.listSummary (cs.map Cid.toString)
    { base with
      constructed := [Attr.string "cids" value]
      setAttrCalls := [[Attr.string "cids" value]] }
  else base

/-- `SpanWithBlockAttribute` (part_000), inline version of src/tracing.go. -/
def SpanWithBlockAttribute (rec : Bool) (componentName spanName : String)
    (b : Block) : SpanTrace :=
  let base := Span componentName spanName
  if rec then
    { base with
      constructed := [Attr.string "block" b.cid.toString]
      setAttrCalls := [[Attr.string "block" b.cid.toString]] }
  else base

/-- `SpanWithBlockListAttribute` (part_000).  Note the placement in the
source: `span.SetAttributes(attribute.String("blocks", value))` sits inside
the `else` branch of `if len(bs) == 0`, so on an empty list the local
`value = "empty list"` is computed but no attribute is ever constructed or
set. -/
def SpanWithBlockListAttribute (rec : Bool) (componentName spanName : String)
    (bs : List Block) : SpanTrace :=
  let base := Span componentName spanName
  if rec then
    if bs.length = 0 then base
    else
      let value := tracing.listSummary (bs.map (fun b => b.cid.toString))
      { base with
        constructed := [Attr.string "blocks" value]
        setAttrCalls := [[Attr.string "blocks" value]] }
  else base

end part000

/-! ## Helper lemmas about the summarisation -/

theorem listSummary_of_gt (ss : List String) (h : 3 < ss.length) :
    tracing.listSummary ss =
      String.intercalate "," (ss.take 3) ++ " and " ++
        Nat.repr (ss.length - 3) ++ " more" := by
  unfold tracing.listSummary
  rw [if_neg (by omega : ¬ ss.length = 0)]
  simp only [if_neg (by omega : ¬ 3 > ss.length), if_pos h]

theorem listSummary_of_le (ss : List String) (h0 : 0 < ss.length)
    (h : ss.length ≤ 3) :
    tracing.listSummary ss = String.intercalate "," ss := by
  unfold tracing.listSummary
  rw [if_neg (by omega : ¬ ss.length = 0)]
  by_cases h3 : 3 > ss.length
  · simp only [if_pos h3, List.take_length, if_neg (lt_irrefl ss.length)]
  · simp only [if_neg h3, if_neg (by omega : ¬ 3 < ss.length),
      List.take_of_length_le h]

theorem intercalate_singleton (s : String) :
    String.intercalate "," [s] = s := rfl

theorem readShown_eq_take (ss : List String) (max : Nat) (h : max ≤ ss.length) :
    tracing.readShown ss max = some (ss.take max) := by
  induction max with
  | zero => simp [tracing.readShown]
  | succ n ih =>
    have hlt : n < ss.length := by omega
    rw [tracing.readShown, ih (by omega)]
    rw [List.get?_eq_get hlt]
    simp [List.take_succ, List.get?_eq_get hlt]

/-! ## Claim theorems -/

/-- C4: for all component and operation name strings `(c, o)`, every
span-starting operation of both source files hands the backend the span name
`c ++ "." ++ o` exactly, with no extra separators and no case
transformation. -/
theorem span_name_is_component_dot_operation (rec : Bool) (c o k v : String)
    (i : Int) (p : IpfsPath) (cd : Cid) (cs : List Cid) (b : Block)
    (bs : List Block) :
    (tracing.Span c o).spanName = c ++ "." ++ o ∧
    (tracing.SpanWithStringAttribute rec c o k v).spanName = c ++ "." ++ o ∧
    (tracing.SpanWithIntAttribute rec c o k i).spanName = c ++ "." ++ o ∧
    (tracing.SpanWithPathAttribute rec c o p).spanName = c ++ "." ++ o ∧
    (tracing.SpanWithCidAttribute rec c o cd).spanName = c ++ "." ++ o ∧
    (tracing.SpanWithCidListAttribute rec c o cs).spanName = c ++ "." ++ o ∧
    (tracing.SpanWithBlockAttribute rec c o b).spanName = c ++ "." ++ o ∧
    (tracing.SpanWithBlockListAttribute rec c o bs).spanName = c ++ "." ++ o ∧
    (part000.Span c o).spanName = c ++ "." ++ o ∧
    (part000.SpanWithStringAttribute rec c o k v).spanName = c ++ "." ++ o ∧
    (part000.SpanWithIntAttribute rec c o k i).spanName = c ++ "." ++ o ∧
    (part000.SpanWithPathAttribute rec c o p).spanName = c ++ "." ++ o ∧
    (part000.SpanWithCidAttribute rec c o cd).spanName = c ++ "." ++ o ∧
    (part000.SpanWithCidListAttribute rec c o cs).spanName = c ++ "." ++ o ∧
    (part000.SpanWithBlockAttribute rec c o b).spanName = c ++ "." ++ o ∧
    (part000.SpanWithBlockListAttribute rec c o bs).spanName = c ++ "." ++ o := by
  cases rec <;>
    simp [tracing.Span, tracing.SpanWithStringAttribute,
      tracing.SpanWithIntAttribute, tracing.SpanWithPathAttribute,
      tracing.SpanWithCidAttribute, tracing.SpanWithCidListAttribute,
      tracing.SpanWithBlockAttribute, tracing.SpanWithBlockListAttribute,
      part000.Span, part000.SpanWithStringAttribute,
      part000.SpanWithIntAttribute, part000.SpanWithPathAttribute,
      part000.SpanWithCidAttribute, part000.SpanWithCidListAttribute,
      part000.SpanWithBlockAttribute, part000.SpanWithBlockListAttribute] <;>
    by_cases hbs : bs = [] <;> simp [hbs]

/-- C1 counterexample: at the string value kind, with the backend returning a
non-recording span, attribute-construction work does occur — the string
attribute is built unconditionally and handed to the tracer as a span-start
option — so the claim that no attribute-construction work observably occurs
for every value kind is false. -/
theorem nonrecording_string_kind_constructs :
    (tracing.SpanWithStringAttribute false "comp" "op" "k" "v").constructed =
      [Attr.string "k" "v"] ∧
    (tracing.SpanWithStringAttribute false "comp" "op" "k" "v").startAttrs =
      [Attr.string "k" "v"] ∧
    ¬ (tracing.SpanWithStringAttribute false "comp" "op" "k" "v").constructed
        = [] := by
  refine ⟨rfl, rfl, by decide⟩

/-- C1 amended: for the path, cid, cid-list, block and block-list value kinds
(in both source files), a non-recording span means no attribute is
constructed and `SetAttributes` is never invoked; for the string and int
kinds `SetAttributes` is likewise never invoked, but the single attribute is
constructed regardless of the recording state and passed to the backend as a
span-start option. -/
theorem nonrecording_skips_attribute_work (c o k v : String) (i : Int)
    (p : IpfsPath) (cd : Cid) (cs : List Cid) (b : Block) (bs : List Block) :
    ((tracing.SpanWithPathAttribute false c o p).constructed = [] ∧
      (tracing.SpanWithPathAttribute false c o p).setAttrCalls = []) ∧
    ((tracing.SpanWithCidAttribute false c o cd).constructed = [] ∧
      (tracing.SpanWithCidAttribute false c o cd).setAttrCalls = []) ∧
    ((tracing.SpanWithCidListAttribute false c o cs).constructed = [] ∧
      (tracing.SpanWithCidListAttribute false c o cs).setAttrCalls = []) ∧
    ((tracing.SpanWithBlockAttribute false c o b).constructed = [] ∧
      (tracing.SpanWithBlockAttribute false c o b).setAttrCalls = []) ∧
    ((tracing.SpanWithBlockListAttribute false c o bs).constructed = [] ∧
      (tracing.SpanWithBlockListAttribute false c o bs).setAttrCalls = []) ∧
    ((part000.SpanWithPathAttribute false c o p).constructed = [] ∧
      (part000.SpanWithPathAttribute false c o p).setAttrCalls = []) ∧
    ((part000.SpanWithCidAttribute false c o cd).constructed = [] ∧
      (part000.SpanWithCidAttribute false c o cd).setAttrCalls = []) ∧
    ((part000.SpanWithCidListAttribute false c o cs).constructed = [] ∧
      (part000.SpanWithCidListAttribute false c o cs).setAttrCalls = []) ∧
    ((part000.SpanWithBlockAttribute false c o b).constructed = [] ∧
      (part000.SpanWithBlockAttribute false c o b).setAttrCalls = []) ∧
    ((part000.SpanWithBlockListAttribute false c o bs).constructed = [] ∧
      (part000.SpanWithBlockListAttribute false c o bs).setAttrCalls = []) ∧
    ((tracing.SpanWithStringAttribute false c o k v).setAttrCalls = [] ∧
      (tracing.SpanWithStringAttribute false c o k v).constructed =
        [Attr.string k v] ∧
      (tracing.SpanWithStringAttribute false c o k v).startAttrs =
        [Attr.string k v]) ∧
    ((tracing.SpanWithIntAttribute false c o k i).setAttrCalls = [] ∧
      (tracing.SpanWithIntAttribute false c o k i).constructed =
        [Attr.int k i] ∧
      (tracing.SpanWithIntAttribute false c o k i).startAttrs =
        [Attr.int k i]) ∧
    ((part000.SpanWithStringAttribute false c o k v).setAttrCalls = [] ∧
      (part000.SpanWithStringAttribute false c o k v).constructed =
        [Attr.string k v]) ∧
    ((part000.SpanWithIntAttribute false c o k i).setAttrCalls = [] ∧
      (part000.SpanWithIntAttribute false c o k i).constructed =
        [Attr.int k i]) := by
  repeat first
  | exact ⟨rfl, rfl⟩
  | exact ⟨rfl, rfl, rfl⟩
  | constructor

/-- C2: the standalone list constructors and the inline cid-list span helper
give an empty list the literal value `"empty list"`, but
`SpanWithBlockListAttribute` in part_000 attaches no attribute at all to a
recording span when the block list is empty: its `SetAttributes` call sits
inside the non-empty branch, leaving the computed `"empty list"` value
unused. -/
theorem emptyList_attribute_divergence :
    tracing.CidListAttribute [] = Attr.string "cids" "empty list" ∧
    tracing.BlockListAttribute [] = Attr.string "blocks" "empty list" ∧
    (tracing.SpanWithCidListAttribute true "comp" "op" []).setAttrCalls =
      [[Attr.string "cids" "empty list"]] ∧
    (tracing.SpanWithBlockListAttribute true "comp" "op" []).setAttrCalls =
      [[Attr.string "blocks" "empty list"]] ∧
    (part000.SpanWithCidListAttribute true "comp" "op" []).setAttrCalls =
      [[Attr.string "cids" "empty list"]] ∧
    (part000.SpanWithBlockListAttribute true "comp" "op" []).setAttrCalls =
      [] := by
  refine ⟨rfl, rfl, rfl, rfl, rfl, rfl⟩

/-- C7: the standalone attribute constructors are deterministic — two calls
on equal inputs yield identical key/value pairs; in this embedding they are
functions of their argument alone, reflecting that the source reads no
global state, randomness or clock. -/
theorem attribute_constructors_deterministic (p p' : IpfsPath) (c c' : Cid)
    (cs cs' : List Cid) (b b' : Block) (bs bs' : List Block)
    (hp : p = p') (hc : c = c') (hcs : cs = cs') (hb : b = b')
    (hbs : bs = bs') :
    tracing.PathAttribute p = tracing.PathAttribute p' ∧
    tracing.CidAttribute c = tracing.CidAttribute c' ∧
    tracing.CidListAttribute cs = tracing.CidListAttribute cs' ∧
    tracing.BlockAttribute b = tracing.BlockAttribute b' ∧
    tracing.BlockListAttribute bs = tracing.BlockListAttribute bs' := by
  subst hp hc hcs hb hbs
  exact ⟨rfl, rfl, rfl, rfl, rfl⟩

/-- Witness for `attribute_constructors_deterministic` at concrete inputs. -/
theorem attribute_constructors_deterministic_witness :
    tracing.PathAttribute ⟨"/ipfs/Qm"⟩ = tracing.PathAttribute ⟨"/ipfs/Qm"⟩ ∧
    tracing.CidAttribute ⟨"QmA"⟩ = tracing.CidAttribute ⟨"QmA"⟩ ∧
    tracing.CidListAttribute [⟨"QmA"⟩] = tracing.CidListAttribute [⟨"QmA"⟩] ∧
    tracing.BlockAttribute ⟨⟨"QmB"⟩⟩ = tracing.BlockAttribute ⟨⟨"QmB"⟩⟩ ∧
    tracing.BlockListAttribute [⟨⟨"QmB"⟩⟩] =
      tracing.BlockListAttribute [⟨⟨"QmB"⟩⟩] :=
  attribute_constructors_deterministic ⟨"/ipfs/Qm"⟩ ⟨"/ipfs/Qm"⟩ ⟨"QmA"⟩ ⟨"QmA"⟩
    [⟨"QmA"⟩] [⟨"QmA"⟩] ⟨⟨"QmB"⟩⟩ ⟨⟨"QmB"⟩⟩ [⟨⟨"QmB"⟩⟩] [⟨⟨"QmB"⟩⟩]
    rfl rfl rfl rfl rfl

/-- C8 counterexample: on a recording span and the empty block list, the two
source files' `SpanWithBlockListAttribute` are not equivalent —
src/tracing.go attaches `("blocks", "empty list")` while part_000 attaches
nothing. -/
theorem blockList_span_impls_differ :
    part000.SpanWithBlockListAttribute true "comp" "op" [] ≠
      tracing.SpanWithBlockListAttribute true "comp" "op" [] := by
  decide

/-- C8 amended: the two `SpanWithCidListAttribute` implementations are
equivalent for every recording state and input, and the two
`SpanWithBlockListAttribute` implementations are equivalent for every
non-empty block list and, vacuously, for every list when not recording; they
diverge only on a recording span with an empty block list. -/
theorem spanList_impls_agree (rec : Bool) (c o : String) (cs : List Cid)
    (bs bs' : List Block) (h : bs ≠ []) :
    part000.SpanWithCidListAttribute rec c o cs =
      tracing.SpanWithCidListAttribute rec c o cs ∧
    part000.SpanWithBlockListAttribute rec c o bs =
      tracing.SpanWithBlockListAttribute rec c o bs ∧
    part000.SpanWithBlockListAttribute false c o bs' =
      tracing.SpanWithBlockListAttribute false c o bs' := by
  refine ⟨?_, ?_, rfl⟩
  · cases rec <;> rfl
  · cases rec with
    | false => rfl
    | true =>
      have hb : ¬ (bs.length = 0) := by simpa using h
      simp only [part000.SpanWithBlockListAttribute,
        tracing.SpanWithBlockListAttribute, tracing.BlockListAttribute,
        if_neg hb]
      simp [part000.Span, tracing.Span]

/-- Witness for `spanList_impls_agree` at concrete inputs. -/
theorem spanList_impls_agree_witness :
    part000.SpanWithCidListAttribute true "comp" "op" [⟨"QmA"⟩] =
      tracing.SpanWithCidListAttribute true "comp" "op" [⟨"QmA"⟩] ∧
    part000.SpanWithBlockListAttribute true "comp" "op" [⟨⟨"QmB"⟩⟩] =
      tracing.SpanWithBlockListAttribute true "comp" "op" [⟨⟨"QmB"⟩⟩] ∧
    part000.SpanWithBlockListAttribute false "comp" "op" [] =
      tracing.SpanWithBlockListAttribute false "comp" "op" [] :=
  spanList_impls_agree true "comp" "op" [⟨"QmA"⟩] [⟨⟨"QmB"⟩⟩] []
    (by decide)

/-- C3: for every list of length `n > 3`, the summarised value is exactly the
canonical strings of the first 3 items joined by commas, followed by
`" and N more"` with `N = n - 3`; a block's canonical string is the string
form of its cid. -/
theorem listAttribute_truncates_long_lists (cs : List Cid) (bs : List Block)
    (hc : 3 < cs.length) (hb : 3 < bs.length) :
    tracing.CidListAttribute cs = Attr.string "cids"
      (String.intercalate "," ((cs.take 3).map Cid.toString) ++ " and " ++
        Nat.repr (cs.length - 3) ++ " more") ∧
    tracing.BlockListAttribute bs = Attr.string "blocks"
      (String.intercalate "," ((bs.take 3).map (fun b => b.cid.toString)) ++
        " and " ++ Nat.repr (bs.length - 3) ++ " more") := by
  constructor
  · unfold tracing.CidListAttribute
    rw [listSummary_of_gt _ (by simpa using hc), ← List.map_take,
      List.length_map]
  · unfold tracing.BlockListAttribute
    rw [listSummary_of_gt _ (by simpa using hb), ← List.map_take,
      List.length_map]

/-- Witness for `listAttribute_truncates_long_lists` on four-element lists. -/
theorem listAttribute_truncates_long_lists_witness :
    tracing.CidListAttribute [⟨"A"⟩, ⟨"B"⟩, ⟨"C"⟩, ⟨"D"⟩] = Attr.string "cids"
      (String.intercalate ","
          ((([⟨"A"⟩, ⟨"B"⟩, ⟨"C"⟩, ⟨"D"⟩] : List Cid).take 3).map Cid.toString)
        ++ " and " ++
        Nat.repr (([⟨"A"⟩, ⟨"B"⟩, ⟨"C"⟩, ⟨"D"⟩] : List Cid).length - 3) ++
        " more") ∧
    tracing.BlockListAttribute [⟨⟨"A"⟩⟩, ⟨⟨"B"⟩⟩, ⟨⟨"C"⟩⟩, ⟨⟨"D"⟩⟩] =
      Attr.string "blocks"
        (String.intercalate ","
            ((([⟨⟨"A"⟩⟩, ⟨⟨"B"⟩⟩, ⟨⟨"C"⟩⟩, ⟨⟨"D"⟩⟩] : List Block).take 3).map
              (fun b => b.cid.toString)) ++ " and " ++
          Nat.repr
            (([⟨⟨"A"⟩⟩, ⟨⟨"B"⟩⟩, ⟨⟨"C"⟩⟩, ⟨⟨"D"⟩⟩] : List Block).length - 3) ++
          " more") :=
  listAttribute_truncates_long_lists [⟨"A"⟩, ⟨"B"⟩, ⟨"C"⟩, ⟨"D"⟩]
    [⟨⟨"A"⟩⟩, ⟨⟨"B"⟩⟩, ⟨⟨"C"⟩⟩, ⟨⟨"D"⟩⟩] (by decide) (by decide)

/-- C5: for every list of length `1 ≤ n ≤ 3`, the summarised value is the
canonical strings of all items joined by commas with no suffix; a singleton
yields just that item's canonical string. -/
theorem listAttribute_short_lists (cs : List Cid) (bs : List Block) (c : Cid)
    (hc0 : 0 < cs.length) (hc3 : cs.length ≤ 3) (hb0 : 0 < bs.length)
    (hb3 : bs.length ≤ 3) :
    tracing.CidListAttribute cs =
      Attr.string "cids" (String.intercalate "," (cs.map Cid.toString)) ∧
    tracing.BlockListAttribute bs =
      Attr.string "blocks"
        (String.intercalate "," (bs.map (fun b => b.cid.toString))) ∧
    tracing.CidListAttribute [c] = Attr.string "cids" c.toString := by
  refine ⟨?_, ?_, ?_⟩
  · unfold tracing.CidListAttribute
    rw [listSummary_of_le _ (by simpa using hc0) (by simpa using hc3)]
  · unfold tracing.BlockListAttribute
    rw [listSummary_of_le _ (by simpa using hb0) (by simpa using hb3)]
  · show Attr.string "cids" (tracing.listSummary [c.toString]) = _
    rw [listSummary_of_le [c.toString] (by simp) (by simp),
      intercalate_singleton]

/-- Witness for `listAttribute_short_lists` on two-element lists and a
singleton. -/
theorem listAttribute_short_lists_witness :
    tracing.CidListAttribute [⟨"A"⟩, ⟨"B"⟩] = Attr.string "cids"
      (String.intercalate ","
        (([⟨"A"⟩, ⟨"B"⟩] : List Cid).map Cid.toString)) ∧
    tracing.BlockListAttribute [⟨⟨"A"⟩⟩, ⟨⟨"B"⟩⟩] = Attr.string "blocks"
      (String.intercalate ","
        (([⟨⟨"A"⟩⟩, ⟨⟨"B"⟩⟩] : List Block).map (fun b => b.cid.toString))) ∧
    tracing.CidListAttribute [⟨"X"⟩] =
      Attr.string "cids" (Cid.toString ⟨"X"⟩) :=
  listAttribute_short_lists [⟨"A"⟩, ⟨"B"⟩] [⟨⟨"A"⟩⟩, ⟨⟨"B"⟩⟩] ⟨"X"⟩
    (by decide) (by decide) (by decide) (by decide)

/-- C6: for every non-empty list, the summarised value renders exactly the
first `min 3 n` items, in their original order, followed by the suffix only
when items were omitted — never a reordered, sampled or non-head subset. -/
theorem summary_renders_ordered_head (cs : List Cid) (bs : List Block)
    (hc : cs ≠ []) (hb : bs ≠ []) :
    (tracing.CidListAttribute cs).value = AttrValue.stringValue
      (String.intercalate "," ((cs.take (min 3 cs.length)).map Cid.toString)
        ++ (if 3 < cs.length then
          " and " ++ Nat.repr (cs.length - 3) ++ " more" else "")) ∧
    (tracing.BlockListAttribute bs).value = AttrValue.stringValue
      (String.intercalate ","
        ((bs.take (min 3 bs.length)).map (fun b => b.cid.toString))
        ++ (if 3 < bs.length then
          " and " ++ Nat.repr (bs.length - 3) ++ " more" else "")) := by
  constructor
  · by_cases h3 : 3 < cs.length
    · unfold tracing.CidListAttribute
      rw [listSummary_of_gt _ (by simpa using h3), if_pos h3,
        min_eq_left (by omega), ← List.map_take, List.length_map]
      simp [Attr.string, String.append_assoc]
    · have hc0 : 0 < cs.length := List.length_pos.mpr hc
      unfold tracing.CidListAttribute
      rw [listSummary_of_le _ (by simpa using hc0)
          (by simp; omega), if_neg h3, min_eq_right (by omega),
        List.take_length]
      simp [Attr.string]
  · by_cases h3 : 3 < bs.length
    · unfold tracing.BlockListAttribute
      rw [listSummary_of_gt _ (by simpa using h3), if_pos h3,
        min_eq_left (by omega), ← List.map_take, List.length_map]
      simp [Attr.string, String.append_assoc]
    · have hb0 : 0 < bs.length := List.length_pos.mpr hb
      unfold tracing.BlockListAttribute
      rw [listSummary_of_le _ (by simpa using hb0)
          (by simp; omega), if_neg h3, min_eq_right (by omega),
        List.take_length]
      simp [Attr.string]

/-- Witness for `summary_renders_ordered_head` on a four-element cid list and
a two-element block list. -/
theorem summary_renders_ordered_head_witness :
    (tracing.CidListAttribute [⟨"A"⟩, ⟨"B"⟩, ⟨"C"⟩, ⟨"D"⟩]).value =
      AttrValue.stringValue
        (String.intercalate ","
            ((([⟨"A"⟩, ⟨"B"⟩, ⟨"C"⟩, ⟨"D"⟩] : List Cid).take
                (min 3 ([⟨"A"⟩, ⟨"B"⟩, ⟨"C"⟩, ⟨"D"⟩] : List Cid).length)).map
              Cid.toString) ++
          (if 3 < ([⟨"A"⟩, ⟨"B"⟩, ⟨"C"⟩, ⟨"D"⟩] : List Cid).length then
            " and " ++
              Nat.repr (([⟨"A"⟩, ⟨"B"⟩, ⟨"C"⟩, ⟨"D"⟩] : List Cid).length - 3)
              ++ " more"
          else "")) ∧
    (tracing.BlockListAttribute [⟨⟨"A"⟩⟩, ⟨⟨"B"⟩⟩]).value =
      AttrValue.stringValue
        (String.intercalate ","
            ((([⟨⟨"A"⟩⟩, ⟨⟨"B"⟩⟩] : List Block).take
                (min 3 ([⟨⟨"A"⟩⟩, ⟨⟨"B"⟩⟩] : List Block).length)).map
              (fun b => b.cid.toString)) ++
          (if 3 < ([⟨⟨"A"⟩⟩, ⟨⟨"B"⟩⟩] : List Block).length then
            " and " ++
              Nat.repr (([⟨⟨"A"⟩⟩, ⟨⟨"B"⟩⟩] : List Block).length - 3) ++
              " more"
          else "")) :=
  summary_renders_ordered_head [⟨"A"⟩, ⟨"B"⟩, ⟨"C"⟩, ⟨"D"⟩]
    [⟨⟨"A"⟩⟩, ⟨⟨"B"⟩⟩] (by decide) (by decide)

/-- C9: for every list of blocks, `BlockListAttribute` carries the same
value as `CidListAttribute` applied to the blocks' cids in the same order;
the two differ only in their keys, `"blocks"` versus `"cids"`. -/
theorem blockList_matches_cidList_of_cids (bs : List Block) :
    (tracing.BlockListAttribute bs).value =
      (tracing.CidListAttribute (bs.map Block.cid)).value ∧
    (tracing.BlockListAttribute bs).key = "blocks" ∧
    (tracing.CidListAttribute (bs.map Block.cid)).key = "cids" := by
  refine ⟨?_, rfl, rfl⟩
  simp only [tracing.BlockListAttribute, tracing.CidListAttribute,
    Attr.string, List.map_map]
  rfl

/-- C10: in the partial model of the summarisation loop, where each indexed
read `cs[i]` may fail, the out-of-bounds branch is unreachable: for every
input the indexed version returns `some` of exactly the total summary,
because the loop bound `max = min 3 length` keeps every index below the
list's length. -/
theorem summary_index_reads_in_bounds (ss : List String) :
    tracing.listSummaryIdx ss = some (tracing.listSummary ss) := by
  unfold tracing.listSummaryIdx tracing.listSummary
  by_cases h0 : ss.length = 0
  · simp [h0]
  · rw [if_neg h0, if_neg h0]
    have hle : (if 3 > ss.length then ss.length else 3) ≤ ss.length := by
      split <;> omega
    simp only [readShown_eq_take _ _ hle]
    by_cases hlt : (if 3 > ss.length then ss.length else 3) < ss.length <;>
      simp [hlt]
